import Mathlib

/-!
Shallow embedding of the GNSS logging scripts `GNSS_sicher.py` and
`GNSS_buffer_test.py`.

Modelling conventions:
* Python float arithmetic is modelled by exact rational arithmetic (`ℚ`).
* A CSV field / string argument that is either empty, a numeric literal or
  non-numeric text is modelled by the inductive type `Field`.
* Python exceptions are modelled with `Except Unit`; a raised, uncaught
  exception in the main loop is the `fatal` outcome.
* The buffer file on disk is `Option (List Row)`: `none` means the file is
  absent, `some rows` means it exists and holds exactly `rows`.
-/

deriving instance DecidableEq for Except

namespace GNSS

/-- A Python string as the scripts consume it: the empty string, a string
that `float()` accepts (carrying its numeric value, real arithmetic modelling
Python float), or non-empty text that `float()` rejects. -/
inductive Field where
  | empty : Field
  | num : ℚ → Field
  | text : String → Field
deriving DecidableEq, Repr

/-- Python truthiness test `not s` for a string: true exactly on `""`. -/
def Field.isEmpty : Field → Bool
  | .empty => true
  | _ => false

/-- Python `s.endswith(suff)`, character-exact on the underlying character
sequences. -/
def strEndsWith (s suff : String) : Bool :=
  suff.data.isSuffixOf s.data

/-- Python `float(s)`: raises `ValueError` (modelled as `.error ()`) on the
empty string and on non-numeric text. -/
def pyFloat : Field → Except Unit ℚ
  | .empty => .error ()
  | .num q => .ok q
  | .text _ => .error ()

/-- Python `int(x)` on a float: truncation toward zero. -/
def pyInt (q : ℚ) : ℤ :=
  if 0 ≤ q then ⌊q⌋ else ⌈q⌉

/-- Python membership test `direction in ("S", "W")`. -/
def Field.isSW : Field → Bool
  | .text s => s = "S" || s = "W"
  | _ => false

/-- `convert_to_decimal(raw, direction)` — identical in both scripts.
Returns `None` when either argument is the empty string; otherwise applies
`float(raw)` (which raises on non-numeric text), splits the NMEA `ddmm.mmmm`
value into whole degrees (`int(float(raw)/100)`) and minutes, and negates the
decimal-degree result for southern or western hemispheres. -/
def convert_to_decimal (raw : Field) (direction : Field) : Except Unit (Option ℚ) :=
  if raw.isEmpty || direction.isEmpty then .ok none
  else
    match pyFloat raw with
    | .error e => .error e
    | .ok v =>
      let deg : ℤ := pyInt (v / 100)
      let minu : ℚ := v - deg * 100
      let dec : ℚ := (deg : ℚ) + minu / 60
      .ok (some (if direction.isSW then -dec else dec))

/-- Result of `parse_gpgga` when it returns a tuple. -/
structure GGAout where
  lat : Option ℚ
  lon : Option ℚ
  alt : Option ℚ
deriving DecidableEq, Repr

/-- `parse_gpgga(line)` on the comma-split fields of the line — identical in
both scripts. Fewer than 10 fields gives `None`; otherwise latitude and
longitude go through `convert_to_decimal` (whose `float()` call may raise),
while a `float()` failure on the altitude field alone is caught and yields an
absent altitude. -/
def parse_gpgga (parts : List Field) : Except Unit (Option GGAout) :=
  if parts.length < 10 then .ok none
  else
    match convert_to_decimal (parts.getD 2 .empty) (parts.getD 3 .empty) with
    | .error e => .error e
    | .ok lat =>
      match convert_to_decimal (parts.getD 4 .empty) (parts.getD 5 .empty) with
      | .error e => .error e
      | .ok lon =>
        let alt : Option ℚ :=
          match pyFloat (parts.getD 9 .empty) with
          | .ok a => some a
          | .error _ => none
        .ok (some ⟨lat, lon, alt⟩)

/-- `parse_gprmc(line)` on the comma-split fields — identical in both
scripts. Fewer than 8 fields or an empty speed field gives `None`; otherwise
`float(parts[7])` (which may raise) is converted from knots to km/h by
multiplying with 1.852. -/
def parse_gprmc (parts : List Field) : Except Unit (Option ℚ) :=
  if parts.length < 8 || (parts.getD 7 .empty).isEmpty then .ok none
  else
    match pyFloat (parts.getD 7 .empty) with
    | .error e => .error e
    | .ok s => .ok (some (s * (1852 / 1000 : ℚ)))

/-! ## The durable buffer file and its operations -/

/-- One CSV row of the buffer file, as the comma-split fields the scripts
read back with `csv.reader`: `[timestamp, lat, lon, alt, speed]`.  An absent
value (`None`) was written by `csv.writer` as the empty field. -/
abbrev Row := List Field

/-- The buffer file on disk: `none` when `buffer.csv` is absent, `some rows`
when it exists and holds exactly `rows`. -/
abbrev BufFile := Option (List Row)

/-- `readAll` of the spec: the rows a reader of the buffer path obtains —
every stored row, or the empty sequence when no buffer file exists (both
scripts return early from `flush_buffer_to_db` in that case). -/
def readAll (file : BufFile) : List Row :=
  file.getD []

/-- `save_to_buffer` in `GNSS_sicher.py` (final file contents): the fresh
temporary file receives the new CSV row first, then every row of the old
buffer file if one exists, and `os.replace` moves it over the buffer path. -/
def save_to_buffer (r : Row) (pre : BufFile) : BufFile :=
  some (r :: pre.getD [])

/-- The observable states of the canonical buffer path during
`save_to_buffer` in `GNSS_sicher.py`: all writes go to the fresh temporary
file, so the canonical path holds its old contents until the single
`os.replace`, after which it holds the new contents. -/
def save_to_buffer_states (r : Row) (pre : BufFile) : List BufFile :=
  [pre, save_to_buffer r pre]

/-- `save_to_buffer` in `GNSS_buffer_test.py` (final file contents): a plain
`open(BUFFER_FILE, "a")` append of the new CSV row, creating the file when
absent. -/
def save_to_buffer_test (r : Row) (pre : BufFile) : BufFile :=
  some (pre.getD [] ++ [r])

/-- The observable states of the canonical buffer path during the
retained-row write-back of `flush_buffer_to_db` in `GNSS_sicher.py`
(lines 122–124): `open(BUFFER_FILE, "w")` truncates the canonical file in
place, then the retained rows are written to it one after another, so every
initial segment of `remaining` is an observable state of the canonical path
(at row granularity; a crash inside a row is even worse). -/
def writeBack_states (remaining : List Row) (pre : BufFile) : List BufFile :=
  pre :: (List.range (remaining.length + 1)).map (fun k => some (remaining.take k))

/-- An operation sequence over the canonical path is atomic when a crash or
concurrent reader at any point observes either the old or the new contents,
never anything in between. -/
def atomicStates (states : List BufFile) (pre post : BufFile) : Bool :=
  states.all (fun s => s = pre || s = post)

/-! ## The drain (`flush_buffer_to_db`) -/

/-- Operations issued on the database connection.  `insert` is a
`cursor.execute` of the INSERT statement, `commit` is `db.commit()`, and
`reopen` stands for establishing a fresh connection (`psycopg2.connect`),
which in both scripts happens only once at startup. -/
inductive DbOp where
  | insert : Row → DbOp
  | commit : DbOp
  | reopen : DbOp
deriving DecidableEq, Repr

/-- Whether the argument tuple of the INSERT can be built from a row: the
row must have the five fields (`row[4]` would otherwise raise `IndexError`)
and `float(row[1]) … float(row[4])` must all succeed.  These conversions run
before `cursor.execute` is called, inside the per-row `try`. -/
def rowInsertable (r : Row) : Bool :=
  5 ≤ r.length &&
    (pyFloat (r.getD 1 .empty)).isOk && (pyFloat (r.getD 2 .empty)).isOk &&
    (pyFloat (r.getD 3 .empty)).isOk && (pyFloat (r.getD 4 .empty)).isOk

/-- A drain attempt on one row succeeds when the row's floats convert and
the `cursor.execute` itself (whose outcome the environment decides, modelled
by the oracle `ins`) does not raise. -/
def attemptOk (ins : Row → Bool) (r : Row) : Bool :=
  rowInsertable r && ins r

/-- The per-row loop of `flush_buffer_to_db` in `GNSS_sicher.py`: every row
is attempted; a failure is printed and the row appended to `remaining`, and
the loop continues with the next row.  Returns
(`success_count`, `remaining`, issued connection operations). -/
def drainRows (ins : Row → Bool) : List Row → ℕ × List Row × List DbOp
  | [] => (0, [], [])
  | r :: rs =>
    let rest := drainRows ins rs
    if rowInsertable r then
      if ins r then (rest.1 + 1, rest.2.1, .insert r :: rest.2.2)
      else (rest.1, r :: rest.2.1, .insert r :: rest.2.2)
    else (rest.1, r :: rest.2.1, rest.2.2)

/-- The per-row loop of `flush_buffer_to_db` in `GNSS_buffer_test.py`: the
first failing row sets `success = False` and `break`s, so later rows are not
attempted.  Returns (`success`, issued connection operations). -/
def drainRowsTest (ins : Row → Bool) : List Row → Bool × List DbOp
  | [] => (true, [])
  | r :: rs =>
    if rowInsertable r then
      if ins r then
        let rest := drainRowsTest ins rs
        (rest.1, .insert r :: rest.2)
      else (false, [.insert r])
    else (false, [])

/-- Outcome of one call to `flush_buffer_to_db`: the buffer file afterwards,
the connection operations issued, and whether an exception escaped the call
(`raised = true` models an uncaught raise, after which the file was not yet
rewritten). -/
structure FlushResult where
  file : BufFile
  trace : List DbOp
  raised : Bool
deriving DecidableEq, Repr

/-- `flush_buffer_to_db(cursor, db)` in `GNSS_sicher.py`.  Absent or empty
buffer file: return immediately.  Otherwise run the per-row loop; if at
least one row succeeded, `db.commit()` (`commitOk = false` makes it raise,
leaving the file unrewritten) and then rewrite the buffer file in place with
exactly the rows that failed. -/
def flush_sicher (ins : Row → Bool) (commitOk : Bool) (file : BufFile) : FlushResult :=
  match file with
  | none => ⟨none, [], false⟩
  | some rows =>
    if rows.isEmpty then ⟨some rows, [], false⟩
    else
      let res := drainRows ins rows
      if 0 < res.1 then
        if commitOk then ⟨some res.2.1, res.2.2 ++ [.commit], false⟩
        else ⟨some rows, res.2.2 ++ [.commit], true⟩
      else ⟨some rows, res.2.2, false⟩

/-- `flush_buffer_to_db(cursor, db)` in `GNSS_buffer_test.py`.  Absent or
empty buffer file: return immediately.  Otherwise run the abort-on-failure
loop; only when every row succeeded, `db.commit()` and truncate the buffer
file to empty (`open(BUFFER_FILE, "w").close()`). -/
def flush_test (ins : Row → Bool) (commitOk : Bool) (file : BufFile) : FlushResult :=
  match file with
  | none => ⟨none, [], false⟩
  | some rows =>
    if rows.isEmpty then ⟨some rows, [], false⟩
    else
      let res := drainRowsTest ins rows
      if res.1 then
        if commitOk then ⟨some [], res.2 ++ [.commit], false⟩
        else ⟨some rows, res.2 ++ [.commit], true⟩
      else ⟨some rows, res.2, false⟩

/-! ## The ingestion loops -/

/-- One decoded, stripped serial line, together with the pieces the loops
extract from it: `header` is `line.split(",")[0]` and `parts` is the
numeric/emptiness abstraction of the full `line.split(",")` field list. -/
structure RawLine where
  text : String
  header : String
  parts : List Field

/-- Mutable loop state: `last_speed` and the buffer file. -/
structure LoopState where
  last_speed : Option ℚ
  file : BufFile
deriving DecidableEq, Repr

/-- Which of the fallible environment interactions of one loop iteration
succeed. `liveOk`: the live `cursor.execute` + `db.commit()` pair for the
fresh fix; `bufOk`: the file writes inside `save_to_buffer` (a failure is
modelled as raising before the buffer file changed); `insOk` and
`drainCommitOk`: the drain's per-row execute and its `db.commit()`. -/
structure Faults where
  liveOk : Bool
  bufOk : Bool
  insOk : Row → Bool
  drainCommitOk : Bool

/-- A fix as handed to the sink or the buffer: parsed GGA fields plus the
speed value chosen for it (`none` models Python `None`). -/
abbrev SentFix := GGAout × Option ℚ

/-- The CSV row `save_to_buffer` writes for a fix: timestamp text, then
latitude, longitude, altitude and speed, with `None` serialized by
`csv.writer` as an empty field. -/
def fixRow (ts : String) (g : GGAout) (speed : Option ℚ) : Row :=
  [Field.text ts,
   (g.lat.map Field.num).getD .empty,
   (g.lon.map Field.num).getD .empty,
   (g.alt.map Field.num).getD .empty,
   (speed.map Field.num).getD .empty]

/-- Result of one iteration of an ingestion loop body: either the loop
continues with a new state (`persisted` records the fix written live to the
sink this iteration, if any), or an exception escaped the body and the
ingestion loop terminates. -/
inductive StepResult where
  | next : LoopState → Option SentFix → StepResult
  | fatal : LoopState → StepResult
deriving DecidableEq, Repr

/-- Whether an exception escaped the iteration. -/
def StepResult.isFatal : StepResult → Bool
  | .fatal _ => true
  | _ => false

/-- One iteration of the `while True` body of `GNSS_sicher.py` for a decoded
line.  There is no exception handler inside the loop except the one `try`
around the live insert/commit (which on failure calls `save_to_buffer`), so
any other raise — a `float()` failure inside `parse_gprmc`/`parse_gpgga`, or
a failure inside `save_to_buffer` itself — escapes to the handler outside
the loop and the ingestion loop terminates (`fatal`). -/
def sicher_step (f : Faults) (st : LoopState) (l : RawLine) (ts : String) : StepResult :=
  if l.text = "" then .next st none
  else if l.header = "$GPRMC" ∨ l.header = "$GNRMC" then
    match parse_gprmc l.parts with
    | .error _ => .fatal st
    | .ok none => .next st none
    | .ok (some v) => .next { st with last_speed := some v } none
  else if strEndsWith l.header "GGA" then
    match parse_gpgga l.parts with
    | .error _ => .fatal st
    | .ok none => .next st none
    | .ok (some g) =>
      let speed : ℚ := st.last_speed.getD 0
      if f.liveOk then
        let res := flush_sicher f.insOk f.drainCommitOk st.file
        if res.raised then
          if f.bufOk then
            .next { st with file := save_to_buffer (fixRow ts g (some speed)) st.file }
              (some (g, some speed))
          else .fatal st
        else .next { st with file := res.file } (some (g, some speed))
      else
        if f.bufOk then
          .next { st with file := save_to_buffer (fixRow ts g (some speed)) st.file } none
        else .fatal st
  else .next st none

/-- One iteration of the `while True` body of `GNSS_buffer_test.py` for a
decoded line.  The whole body sits inside `try … except KeyboardInterrupt:
break / except Exception: … continue`, so every raise that reaches the body
level — parse failures, `save_to_buffer` failures, the drain's commit
failure after the live path already buffered a duplicate — is caught and the
loop continues. -/
def buffer_test_step (f : Faults) (st : LoopState) (l : RawLine) (ts : String) : StepResult :=
  if l.text = "" then .next st none
  else if strEndsWith l.header "RMC" then
    match parse_gprmc l.parts with
    | .error _ => .next st none
    | .ok none => .next st none
    | .ok (some v) => .next { st with last_speed := some v } none
  else if strEndsWith l.header "GGA" then
    match parse_gpgga l.parts with
    | .error _ => .next st none
    | .ok none => .next st none
    | .ok (some g) =>
      let speed : Option ℚ := st.last_speed
      if f.liveOk then
        let res := flush_test f.insOk f.drainCommitOk st.file
        if res.raised then
          if f.bufOk then
            .next { st with file := save_to_buffer_test (fixRow ts g speed) st.file }
              (some (g, speed))
          else .next st (some (g, speed))
        else .next { st with file := res.file } (some (g, speed))
      else
        if f.bufOk then
          .next { st with file := save_to_buffer_test (fixRow ts g speed) st.file } none
        else .next st none
  else .next st none

/-- The fix written live to the sink by this iteration, if any. -/
def StepResult.sent : StepResult → Option SentFix
  | .next _ p => p
  | .fatal _ => none

/-! ## Spec-side definition for the refinement comparison -/

/-- Following the spec's words only (not the source): the magnitude of a
decimal-degree value decoded from the NMEA `ddmm.mmmm` encoding is the whole
degrees plus the minutes divided by 60. -/
def ddmmMagnitude (q : ℚ) : ℚ :=
  (⌊q / 100⌋ : ℚ) + (q - 100 * ⌊q / 100⌋) / 60

/-! ## Concrete sample data for the scenarios -/

/-- An insertable sample buffer row (all float fields numeric). -/
def sampleRow (n : ℚ) : Row :=
  [.text "t", .num n, .num 2, .num 3, .num 4]

/-- The five-entry backlog of the partial-failure scenario. -/
def backlog5 : List Row :=
  [sampleRow 1, sampleRow 2, sampleRow 3, sampleRow 4, sampleRow 5]

/-- Insert oracle under which exactly entry #3 of the backlog always fails. -/
def failsThird (r : Row) : Bool :=
  decide (r ≠ sampleRow 3)

/-- A syntactically complete GGA sentence whose position and altitude fields
are empty (no satellite lock): `parse_gpgga` accepts it with absent values. -/
def ggaLine : RawLine :=
  { text := "$GPGGA,000000,,,,,0,00,,"
    header := "$GPGGA"
    parts := [.text "$GPGGA", .num 0, .empty, .empty, .empty, .empty,
              .num 0, .num 0, .empty, .empty] }

/-- A GGA sentence with ten fields whose latitude field is non-numeric text:
`float()` inside `convert_to_decimal` raises on it. -/
def badLatLine : RawLine :=
  { text := "$GPGGA,123519,ABC,N,01131,E,1,08,1,545"
    header := "$GPGGA"
    parts := [.text "$GPGGA", .num 123519, .text "ABC", .text "N", .num 1131,
              .text "E", .num 1, .num 8, .num 1, .num 545] }

/-- An RMC sentence carrying 10 knots in the speed-over-ground field. -/
def rmcLine : RawLine :=
  { text := "$GPRMC,000000,A,,,,,10,"
    header := "$GPRMC"
    parts := [.text "$GPRMC", .num 0, .text "A", .empty, .empty, .empty,
              .empty, .num 10, .empty] }

/-- Environment in which every interaction succeeds. -/
def faultsBenign : Faults :=
  { liveOk := true, bufOk := true, insOk := fun _ => true, drainCommitOk := true }

/-- Environment in which the live insert fails and the buffer write also
fails (e.g. the disk is full). -/
def faultsAllFail : Faults :=
  { liveOk := false, bufOk := false, insOk := fun _ => true, drainCommitOk := true }

/-! ## Helper lemmas about the drain loops -/

theorem drainRows_remaining (ins : Row → Bool) (rows : List Row) :
    (drainRows ins rows).2.1 = rows.filter (fun r => !(attemptOk ins r)) := by
  induction rows with
  | nil => rfl
  | cons r rs ih =>
    simp only [drainRows, List.filter_cons]
    simp only [attemptOk] at ih ⊢
    by_cases h1 : rowInsertable r = true
    · by_cases h2 : ins r = true
      · simp [h1, h2, ih]
      · simp [h1, h2, ih]
    · simp [h1, ih]

theorem drainRows_count_pos (ins : Row → Bool) (rows : List Row) :
    0 < (drainRows ins rows).1 ↔ ∃ r ∈ rows, attemptOk ins r = true := by
  induction rows with
  | nil => simp [drainRows]
  | cons r rs ih =>
    simp only [drainRows]
    simp only [attemptOk] at ih ⊢
    by_cases h1 : rowInsertable r = true
    · by_cases h2 : ins r = true
      · simp [h1, h2]
      · simp [h1, h2, ih]
    · simp [h1, ih]

theorem drainRows_trace_ops (ins : Row → Bool) (rows : List Row) :
    ∀ op ∈ (drainRows ins rows).2.2, ∃ r, op = DbOp.insert r := by
  induction rows with
  | nil => simp [drainRows]
  | cons r rs ih =>
    simp only [drainRows]
    by_cases h1 : rowInsertable r = true
    · by_cases h2 : ins r = true
      · simpa [h1, h2] using fun op h => Or.elim h (fun he => ⟨r, he⟩) (fun hm => ih op hm)
      · simpa [h1, h2] using fun op h => Or.elim h (fun he => ⟨r, he⟩) (fun hm => ih op hm)
    · simpa [h1] using ih

theorem drainRows_trace_insert (ins : Row → Bool) (rows : List Row) :
    ∀ r ∈ rows, rowInsertable r = true → DbOp.insert r ∈ (drainRows ins rows).2.2 := by
  induction rows with
  | nil => simp
  | cons a rs ih =>
    intro r hr hins
    rcases List.mem_cons.mp hr with hr | hr
    · subst hr
      simp only [drainRows, hins, if_true]
      by_cases h2 : ins r = true
      · simp [h2]
      · simp [h2]
    · have hmem := ih r hr hins
      simp only [drainRows]
      by_cases h1 : rowInsertable a = true
      · by_cases h2 : ins a = true
        · simp [h1, h2, hmem]
        · simp [h1, h2, hmem]
      · simp [h1, hmem]

theorem drainRowsTest_trace_ops (ins : Row → Bool) (rows : List Row) :
    ∀ op ∈ (drainRowsTest ins rows).2, ∃ r, op = DbOp.insert r := by
  induction rows with
  | nil => simp [drainRowsTest]
  | cons r rs ih =>
    simp only [drainRowsTest]
    by_cases h1 : rowInsertable r = true
    · by_cases h2 : ins r = true
      · simpa [h1, h2] using fun op h => Or.elim h (fun he => ⟨r, he⟩) (fun hm => ih op hm)
      · simp [h1, h2]
    · simp [h1]

theorem drainRowsTest_head_fail (ins : Row → Bool) (r : Row) (rs : List Row)
    (h : attemptOk ins r = false) : (drainRowsTest ins (r :: rs)).1 = false := by
  simp only [drainRowsTest]
  rcases Bool.and_eq_false_iff.mp (by simpa [attemptOk] using h) with h1 | h1
  · simp [h1]
  · by_cases h2 : rowInsertable r = true
    · simp [h2, h1]
    · simp [h2]

theorem flush_sicher_no_success (ins : Row → Bool) (c : Bool) (rows : List Row)
    (h : ¬ ∃ r ∈ rows, attemptOk ins r = true) :
    flush_sicher ins c (some rows) = ⟨some rows, (drainRows ins rows).2.2, false⟩ := by
  cases rows with
  | nil => rfl
  | cons a rs =>
    have hcnt : ¬ 0 < (drainRows ins (a :: rs)).1 := by rw [drainRows_count_pos]; exact h
    simp [flush_sicher, hcnt]

theorem flush_sicher_success (ins : Row → Bool) (rows : List Row)
    (h : ∃ r ∈ rows, attemptOk ins r = true) :
    flush_sicher ins true (some rows) =
      ⟨some (rows.filter fun r => !(attemptOk ins r)),
       (drainRows ins rows).2.2 ++ [.commit], false⟩ := by
  cases rows with
  | nil => simp at h
  | cons a rs =>
    have hcnt : 0 < (drainRows ins (a :: rs)).1 := by rw [drainRows_count_pos]; exact h
    simp [flush_sicher, hcnt, drainRows_remaining]

theorem flush_sicher_commit_fail (ins : Row → Bool) (rows : List Row)
    (h : ∃ r ∈ rows, attemptOk ins r = true) :
    flush_sicher ins false (some rows) =
      ⟨some rows, (drainRows ins rows).2.2 ++ [.commit], true⟩ := by
  cases rows with
  | nil => simp at h
  | cons a rs =>
    have hcnt : 0 < (drainRows ins (a :: rs)).1 := by rw [drainRows_count_pos]; exact h
    simp [flush_sicher, hcnt]

theorem flush_test_no_success (ins : Row → Bool) (c : Bool) (rows : List Row)
    (h : ∀ r ∈ rows, attemptOk ins r = false) :
    flush_test ins c (some rows) = ⟨some rows, (drainRowsTest ins rows).2, false⟩ := by
  cases rows with
  | nil => rfl
  | cons a rs =>
    have hfail : (drainRowsTest ins (a :: rs)).1 = false :=
      drainRowsTest_head_fail ins a rs (h a (by simp))
    simp [flush_test, hfail]

theorem flush_test_commit_fail (ins : Row → Bool) (rows : List Row)
    (hne : rows ≠ []) (h : (drainRowsTest ins rows).1 = true) :
    flush_test ins false (some rows) =
      ⟨some rows, (drainRowsTest ins rows).2 ++ [.commit], true⟩ := by
  cases rows with
  | nil => exact absurd rfl hne
  | cons a rs => simp [flush_test, h]

/-! ## Claim theorems -/

/-- C1: after `save_to_buffer`, reading the buffer file yields the new fix
together with every previously stored entry.  In `GNSS_sicher.py` the write
goes to a fresh temporary file holding the new entry followed by all prior
entries and the canonical path changes only at the atomic `os.replace`
(every observable state of the canonical path — hence also what a restarted
process reads — is the old or the new contents); `GNSS_buffer_test.py` uses
a plain append. -/
theorem C1_append_durable (r : Row) (pre : BufFile) :
    readAll (save_to_buffer r pre) = r :: readAll pre ∧
    r ∈ readAll (save_to_buffer r pre) ∧
    (∀ x ∈ readAll pre, x ∈ readAll (save_to_buffer r pre)) ∧
    atomicStates (save_to_buffer_states r pre) pre (save_to_buffer r pre) = true ∧
    readAll (save_to_buffer_test r pre) = readAll pre ++ [r] ∧
    r ∈ readAll (save_to_buffer_test r pre) ∧
    (∀ x ∈ readAll pre, x ∈ readAll (save_to_buffer_test r pre)) := by
  refine ⟨?_, ?_, ?_, ?_, ?_, ?_, ?_⟩
  · cases pre <;> simp [readAll, save_to_buffer]
  · simp [readAll, save_to_buffer]
  · intro x hx
    cases pre with
    | none => simp [readAll] at hx
    | some l => simp only [readAll, save_to_buffer] at hx ⊢; simp_all
  · simp [atomicStates, save_to_buffer_states]
  · cases pre <;> simp [readAll, save_to_buffer_test]
  · simp [readAll, save_to_buffer_test]
  · intro x hx
    cases pre with
    | none => simp [readAll] at hx
    | some l => simp only [readAll, save_to_buffer_test] at hx ⊢; simp_all

/-- C1 witness: the atomic append at a concrete prior buffer. -/
theorem C1_append_durable_witness :
    sampleRow 1 ∈ readAll (save_to_buffer (sampleRow 1) (some [sampleRow 2])) ∧
    sampleRow 2 ∈ readAll (save_to_buffer (sampleRow 1) (some [sampleRow 2])) := by
  have h := C1_append_durable (sampleRow 1) (some [sampleRow 2])
  exact ⟨h.2.1, h.2.2.1 (sampleRow 2) (by simp [readAll])⟩

/-- C6: a drain on an absent or empty buffer file is a no-op in both
variants — no connection operation is issued, nothing is raised, and the
file is not mutated; `readAll` of an absent buffer file is empty. -/
theorem C6_drain_on_empty_noop :
    (∀ (ins : Row → Bool) (c : Bool), flush_sicher ins c none = ⟨none, [], false⟩) ∧
    (∀ (ins : Row → Bool) (c : Bool), flush_sicher ins c (some []) = ⟨some [], [], false⟩) ∧
    (∀ (ins : Row → Bool) (c : Bool), flush_test ins c none = ⟨none, [], false⟩) ∧
    (∀ (ins : Row → Bool) (c : Bool), flush_test ins c (some []) = ⟨some [], [], false⟩) ∧
    readAll none = [] :=
  ⟨fun _ _ => rfl, fun _ _ => rfl, fun _ _ => rfl, fun _ _ => rfl, rfl⟩

/-- C10: `convert_to_decimal` yields `None` exactly when the raw or the
direction string is empty; on a numeric raw value the southern result is the
negation of the northern one and the western result the negation of the
eastern one, and for a (necessarily nonnegative) `ddmm.mmmm` encoding the
magnitude is whole degrees plus minutes/60. -/
theorem C10_convert_sign_and_none :
    (∀ raw dir : Field,
      convert_to_decimal raw dir = .ok none ↔ (raw.isEmpty = true ∨ dir.isEmpty = true)) ∧
    (∀ q : ℚ, ∃ v : ℚ,
      convert_to_decimal (.num q) (.text "N") = .ok (some v) ∧
      convert_to_decimal (.num q) (.text "S") = .ok (some (-v)) ∧
      convert_to_decimal (.num q) (.text "E") = .ok (some v) ∧
      convert_to_decimal (.num q) (.text "W") = .ok (some (-v)) ∧
      (0 ≤ q → v = ddmmMagnitude q)) := by
  constructor
  · intro raw dir
    cases raw <;> cases dir <;>
      simp [convert_to_decimal, Field.isEmpty, Field.isSW, pyFloat]
  · intro q
    refine ⟨(pyInt (q / 100) : ℚ) + (q - pyInt (q / 100) * 100) / 60, ?_, ?_, ?_, ?_, ?_⟩
    · simp [convert_to_decimal, Field.isEmpty, Field.isSW, pyFloat]
    · simp [convert_to_decimal, Field.isEmpty, Field.isSW, pyFloat]
    · simp [convert_to_decimal, Field.isEmpty, Field.isSW, pyFloat]
    · simp [convert_to_decimal, Field.isEmpty, Field.isSW, pyFloat]
    · intro hq
      have h100 : (0 : ℚ) ≤ q / 100 := by positivity
      simp only [pyInt, if_pos h100, ddmmMagnitude]
      ring

/-- C10 witness: the symmetry and magnitude at raw value 5130.0
(51 degrees 30 minutes). -/
theorem C10_convert_sign_and_none_witness :
    ∃ v : ℚ,
      convert_to_decimal (.num 5130) (.text "N") = .ok (some v) ∧
      convert_to_decimal (.num 5130) (.text "S") = .ok (some (-v)) ∧
      convert_to_decimal (.num 5130) (.text "E") = .ok (some v) ∧
      convert_to_decimal (.num 5130) (.text "W") = .ok (some (-v)) ∧
      v = ddmmMagnitude 5130 := by
  obtain ⟨v, h1, h2, h3, h4, h5⟩ := C10_convert_sign_and_none.2 5130
  exact ⟨v, h1, h2, h3, h4, h5 (by norm_num)⟩

/-- C9: a drain in which no row succeeds issues no commit and leaves the
buffer file's contents unchanged, in both variants; and (sicher variant) the
store is rewritten only when at least one row was inserted successfully. -/
theorem C9_no_success_frame :
    (∀ (ins : Row → Bool) (c : Bool) (rows : List Row),
      (∀ r ∈ rows, attemptOk ins r = false) →
      (flush_sicher ins c (some rows)).file = some rows ∧
      (flush_sicher ins c (some rows)).raised = false ∧
      DbOp.commit ∉ (flush_sicher ins c (some rows)).trace ∧
      (flush_test ins c (some rows)).file = some rows ∧
      (flush_test ins c (some rows)).raised = false ∧
      DbOp.commit ∉ (flush_test ins c (some rows)).trace) ∧
    (∀ (ins : Row → Bool) (c : Bool) (rows : List Row),
      (flush_sicher ins c (some rows)).file ≠ some rows →
      ∃ r ∈ rows, attemptOk ins r = true) := by
  constructor
  · intro ins c rows h
    have hno : ¬ ∃ r ∈ rows, attemptOk ins r = true := by
      rintro ⟨r, hr, hok⟩
      exact absurd hok (by simp [h r hr])
    rw [flush_sicher_no_success ins c rows hno, flush_test_no_success ins c rows h]
    refine ⟨rfl, rfl, ?_, rfl, rfl, ?_⟩
    · intro hmem
      obtain ⟨r, hr⟩ := drainRows_trace_ops ins rows _ hmem
      exact DbOp.noConfusion hr
    · intro hmem
      obtain ⟨r, hr⟩ := drainRowsTest_trace_ops ins rows _ hmem
      exact DbOp.noConfusion hr
  · intro ins c rows hne
    by_contra hno
    exact hne (by rw [flush_sicher_no_success ins c rows hno])

/-- C9 witness: a single-row backlog whose row always fails to insert. -/
theorem C9_no_success_frame_witness :
    (flush_sicher (fun _ => false) true (some [sampleRow 1])).file = some [sampleRow 1] ∧
    DbOp.commit ∉ (flush_sicher (fun _ => false) true (some [sampleRow 1])).trace ∧
    (flush_test (fun _ => false) true (some [sampleRow 1])).file = some [sampleRow 1] ∧
    DbOp.commit ∉ (flush_test (fun _ => false) true (some [sampleRow 1])).trace := by
  have h := C9_no_success_frame.1 (fun _ => false) true [sampleRow 1]
    (by intro r hr; simp [attemptOk])
  exact ⟨h.1, h.2.2.1, h.2.2.2.1, h.2.2.2.2.2⟩

/-- C2 counterexample: in `GNSS_buffer_test.py`, with the five-entry backlog
whose entry #3 always fails, the drain `break`s at entry #3, issues no
commit, and leaves all five entries in the buffer — not just entry #3 —
refuting the claim for that variant's `flush_buffer_to_db`. -/
theorem C2_counterexample :
    (flush_test failsThird true (some backlog5)).file = some backlog5 ∧
    (flush_test failsThird true (some backlog5)).file ≠ some [sampleRow 3] ∧
    DbOp.commit ∉ (flush_test failsThird true (some backlog5)).trace ∧
    DbOp.insert (sampleRow 4) ∉ (flush_test failsThird true (some backlog5)).trace := by
  decide

/-- C2 amended: in `GNSS_sicher.py` the drain isolates failures per-row —
whenever some row succeeds, the rewritten buffer holds exactly the failed
rows, every insertable row was attempted, the commit is issued, and nothing
is raised.  (`GNSS_buffer_test.py` instead aborts the drain at the first
failing row, see the counterexample.) -/
theorem C2_sicher_per_row_isolation (ins : Row → Bool) (rows : List Row)
    (h : ∃ r ∈ rows, attemptOk ins r = true) :
    (flush_sicher ins true (some rows)).file =
      some (rows.filter fun r => !(attemptOk ins r)) ∧
    DbOp.commit ∈ (flush_sicher ins true (some rows)).trace ∧
    (∀ r ∈ rows, rowInsertable r = true →
      DbOp.insert r ∈ (flush_sicher ins true (some rows)).trace) ∧
    (flush_sicher ins true (some rows)).raised = false := by
  rw [flush_sicher_success ins rows h]
  refine ⟨rfl, by simp, ?_, rfl⟩
  intro r hr hins
  simp only [List.mem_append]
  exact Or.inl (drainRows_trace_insert ins rows r hr hins)

/-- C2 witness: the five-entry backlog with entry #3 failing, drained by the
sicher variant: exactly entry #3 remains and commit is issued. -/
theorem C2_sicher_per_row_isolation_witness :
    (flush_sicher failsThird true (some backlog5)).file = some [sampleRow 3] ∧
    DbOp.commit ∈ (flush_sicher failsThird true (some backlog5)).trace ∧
    DbOp.insert (sampleRow 4) ∈ (flush_sicher failsThird true (some backlog5)).trace := by
  have h := C2_sicher_per_row_isolation failsThird backlog5 (by decide)
  refine ⟨?_, h.2.1, h.2.2.1 (sampleRow 4) (by decide) (by decide)⟩
  rw [h.1]
  decide

/-- C3 counterexample: the post-drain write-back of retained rows in
`GNSS_sicher.py` is an in-place overwrite: with a five-entry file and one
retained row, the truncated empty file is an observable state of the
canonical path that is neither the old nor the new contents — so the
write-back does not have the append's atomicity contract. -/
theorem C3_counterexample :
    some [] ∈ writeBack_states [sampleRow 3] (some backlog5) ∧
    some ([] : List Row) ≠ some backlog5 ∧
    some ([] : List Row) ≠ some [sampleRow 3] ∧
    atomicStates (writeBack_states [sampleRow 3] (some backlog5))
      (some backlog5) (some [sampleRow 3]) = false := by
  decide

/-- C3 amended: `save_to_buffer` in `GNSS_sicher.py` is atomic — every
observable state of the canonical buffer path is the old or the new
contents — but the write-back of retained rows after a drain
(`open(BUFFER_FILE, "w")` on the canonical path) is not: whenever the prior
file was nonempty and some rows are retained, an intermediate state (the
truncated file) differs from both the old and the new contents. -/
theorem C3_append_atomic_writeback_not (r : Row) (remaining : List Row) (pre : BufFile)
    (h1 : pre ≠ some []) (h2 : remaining ≠ []) :
    atomicStates (save_to_buffer_states r pre) pre (save_to_buffer r pre) = true ∧
    atomicStates (writeBack_states remaining pre) pre (some remaining) = false := by
  constructor
  · simp [atomicStates, save_to_buffer_states]
  · rw [Bool.eq_false_iff]
    intro hall
    rw [atomicStates, List.all_eq_true] at hall
    have hmem : (some [] : BufFile) ∈ writeBack_states remaining pre := by
      simp only [writeBack_states, List.mem_cons, List.mem_map]
      exact Or.inr ⟨0, by simp, by simp⟩
    have := hall _ hmem
    simp only [Bool.or_eq_true, decide_eq_true_eq] at this
    rcases this with h | h
    · exact h1 h.symm
    · exact h2 (by simpa using h.symm)

/-- C3 witness: the atomic append and the non-atomic write-back at the
concrete five-entry scenario. -/
theorem C3_append_atomic_writeback_not_witness :
    atomicStates (save_to_buffer_states (sampleRow 1) (some backlog5)) (some backlog5)
      (save_to_buffer (sampleRow 1) (some backlog5)) = true ∧
    atomicStates (writeBack_states [sampleRow 3] (some backlog5))
      (some backlog5) (some [sampleRow 3]) = false :=
  C3_append_atomic_writeback_not (sampleRow 1) [sampleRow 3] (some backlog5)
    (by decide) (by decide)

/-- C4 counterexample: when the drain's commit fails on the five-entry
backlog (all rows inserted), `flush_buffer_to_db` in `GNSS_sicher.py` raises
with the buffer file unchanged, and no reconnection operation is ever issued
— the connection is not re-opened, refuting that part of the claim. -/
theorem C4_counterexample :
    (flush_sicher (fun _ => true) false (some backlog5)).raised = true ∧
    (flush_sicher (fun _ => true) false (some backlog5)).file = some backlog5 ∧
    DbOp.reopen ∉ (flush_sicher (fun _ => true) false (some backlog5)).trace := by
  decide

/-- C4 amended: if commit fails during a drain, all drained entries remain
in the buffer file for the next cycle (in both variants), but the connection
is not re-opened: no reconnect operation is issued and the commit exception
propagates to the caller. -/
theorem C4_commit_fail_retains_no_reopen :
    (∀ (ins : Row → Bool) (rows : List Row),
      (∃ r ∈ rows, attemptOk ins r = true) →
      (flush_sicher ins false (some rows)).file = some rows ∧
      (flush_sicher ins false (some rows)).raised = true ∧
      DbOp.reopen ∉ (flush_sicher ins false (some rows)).trace) ∧
    (∀ (ins : Row → Bool) (rows : List Row),
      rows ≠ [] → (drainRowsTest ins rows).1 = true →
      (flush_test ins false (some rows)).file = some rows ∧
      (flush_test ins false (some rows)).raised = true ∧
      DbOp.reopen ∉ (flush_test ins false (some rows)).trace) := by
  constructor
  · intro ins rows h
    rw [flush_sicher_commit_fail ins rows h]
    refine ⟨rfl, rfl, ?_⟩
    intro hmem
    rcases List.mem_append.mp hmem with hm | hm
    · obtain ⟨r, hr⟩ := drainRows_trace_ops ins rows _ hm
      exact DbOp.noConfusion hr
    · exact DbOp.noConfusion (List.mem_singleton.mp hm)
  · intro ins rows hne hsucc
    rw [flush_test_commit_fail ins rows hne hsucc]
    refine ⟨rfl, rfl, ?_⟩
    intro hmem
    rcases List.mem_append.mp hmem with hm | hm
    · obtain ⟨r, hr⟩ := drainRowsTest_trace_ops ins rows _ hm
      exact DbOp.noConfusion hr
    · exact DbOp.noConfusion (List.mem_singleton.mp hm)

/-- C4 witness: commit failure over the five-entry backlog in both
variants. -/
theorem C4_commit_fail_retains_no_reopen_witness :
    (flush_sicher (fun _ => true) false (some backlog5)).file = some backlog5 ∧
    DbOp.reopen ∉ (flush_sicher (fun _ => true) false (some backlog5)).trace ∧
    (flush_test (fun _ => true) false (some backlog5)).file = some backlog5 ∧
    DbOp.reopen ∉ (flush_test (fun _ => true) false (some backlog5)).trace := by
  have h1 := C4_commit_fail_retains_no_reopen.1 (fun _ => true) backlog5 (by decide)
  have h2 := C4_commit_fail_retains_no_reopen.2 (fun _ => true) backlog5 (by decide) (by decide)
  exact ⟨h1.1, h1.2.2, h2.1, h2.2.2⟩

theorem flush_sicher_commitOk_not_raised (ins : Row → Bool) (file : BufFile) :
    (flush_sicher ins true file).raised = false := by
  cases file with
  | none => rfl
  | some rows =>
    simp only [flush_sicher]
    split
    · rfl
    · split <;> simp

theorem flush_test_commitOk_not_raised (ins : Row → Bool) (file : BufFile) :
    (flush_test ins true file).raised = false := by
  cases file with
  | none => rfl
  | some rows =>
    simp only [flush_test]
    split
    · rfl
    · split <;> simp

theorem parse_gpgga_short (parts : List Field) (h : parts.length < 10) :
    parse_gpgga parts = .ok none := by
  simp [parse_gpgga, h]

theorem parse_gprmc_num (parts : List Field) (s : ℚ) (hlen : 8 ≤ parts.length)
    (hfield : parts.getD 7 .empty = .num s) :
    parse_gprmc parts = .ok (some (s * (1852 / 1000 : ℚ))) := by
  have h7 : parts[7]?.getD Field.empty = Field.num s := by simpa [List.getD] using hfield
  simp [parse_gprmc, Nat.not_lt.mpr hlen, List.getD, h7, Field.isEmpty, pyFloat]

/-- C5 counterexample: a buffer-write fault while handling a valid fix whose
live insert failed.  `GNSS_sicher.py` has no handler around `save_to_buffer`
(it is itself inside the `except` clause), so the fault escapes the loop
body and the ingestion loop terminates — refuting the claim that only an
external interrupt or a startup failure can terminate it.  The
`GNSS_buffer_test.py` loop, whose body is wrapped in a broad handler,
continues on the same faults. -/
theorem C5_counterexample :
    (sicher_step faultsAllFail ⟨none, none⟩ ggaLine "t").isFatal = true ∧
    (buffer_test_step faultsAllFail ⟨none, none⟩ ggaLine "t").isFatal = false := by
  decide

/-- C5 amended: in `GNSS_buffer_test.py` no fault in the loop body is fatal
(the broad inner handler catches everything and the loop continues), but in
`GNSS_sicher.py` a failure inside `save_to_buffer` — reached when the live
insert of a valid fix fails — escapes the loop body and terminates the
ingestion loop. -/
theorem C5_loop_fault_policy :
    (∀ (f : Faults) (st : LoopState) (l : RawLine) (ts : String),
      (buffer_test_step f st l ts).isFatal = false) ∧
    (∀ (f : Faults) (st : LoopState) (l : RawLine) (ts : String) (g : GGAout),
      l.text ≠ "" →
      ¬(l.header = "$GPRMC" ∨ l.header = "$GNRMC") →
      strEndsWith l.header "GGA" = true →
      parse_gpgga l.parts = .ok (some g) →
      f.liveOk = false → f.bufOk = false →
      (sicher_step f st l ts).isFatal = true) := by
  constructor
  · intro f st l ts
    simp only [buffer_test_step]
    repeat' first
      | rfl
      | split
  · intro f st l ts g htext hrmc hgga hparse hlive hbuf
    simp [sicher_step, htext, hrmc, hgga, hparse, hlive, hbuf, StepResult.isFatal]

/-- C5 witness: the two loop behaviours at the concrete faulty iteration. -/
theorem C5_loop_fault_policy_witness :
    (buffer_test_step faultsAllFail ⟨none, none⟩ ggaLine "t").isFatal = false ∧
    (sicher_step faultsAllFail ⟨none, none⟩ ggaLine "t").isFatal = true := by
  refine ⟨C5_loop_fault_policy.1 faultsAllFail ⟨none, none⟩ ggaLine "t", ?_⟩
  exact C5_loop_fault_policy.2 faultsAllFail ⟨none, none⟩ ggaLine "t" ⟨none, none, none⟩
    (by decide) (by decide) (by decide) rfl rfl rfl

/-- C7 counterexample: a ten-field GGA sentence whose latitude field is
non-numeric text.  `convert_to_decimal`'s unguarded `float()` raises inside
`parse_gpgga`, and in `GNSS_sicher.py` the raise happens outside any handler
inside the loop, so it escapes as fatal — refuting the claim that a
malformed line is always dropped without a loop-terminating exception. -/
theorem C7_counterexample :
    parse_gpgga badLatLine.parts = .error () ∧
    (sicher_step faultsBenign ⟨none, none⟩ badLatLine "t").isFatal = true := by
  exact ⟨rfl, by decide⟩

/-- C7 amended: empty lines are skipped by both loops, and a GGA line with
fewer than 10 comma-separated fields is dropped with the loop continuing in
both variants; but a line whose latitude/longitude field is non-numeric
makes `parse_gpgga` raise — `GNSS_buffer_test.py`'s broad inner handler
catches it and the loop continues, while in `GNSS_sicher.py` the exception
escapes the ingestion loop as fatal. -/
theorem C7_malformed_line_policy :
    (∀ (f : Faults) (st : LoopState) (l : RawLine) (ts : String),
      l.text = "" →
      sicher_step f st l ts = .next st none ∧
      buffer_test_step f st l ts = .next st none) ∧
    (∀ (f : Faults) (st : LoopState) (l : RawLine) (ts : String),
      l.text ≠ "" →
      ¬(l.header = "$GPRMC" ∨ l.header = "$GNRMC") →
      strEndsWith l.header "RMC" = false →
      l.parts.length < 10 →
      sicher_step f st l ts = .next st none ∧
      buffer_test_step f st l ts = .next st none) ∧
    (∀ (f : Faults) (st : LoopState) (l : RawLine) (ts : String) (e : Unit),
      l.text ≠ "" →
      strEndsWith l.header "RMC" = false →
      parse_gpgga l.parts = .error e →
      buffer_test_step f st l ts = .next st none) ∧
    (∀ (f : Faults) (st : LoopState) (l : RawLine) (ts : String) (e : Unit),
      l.text ≠ "" →
      ¬(l.header = "$GPRMC" ∨ l.header = "$GNRMC") →
      strEndsWith l.header "GGA" = true →
      parse_gpgga l.parts = .error e →
      (sicher_step f st l ts).isFatal = true) := by
  refine ⟨?_, ?_, ?_, ?_⟩
  · intro f st l ts htext
    constructor <;> simp [sicher_step, buffer_test_step, htext]
  · intro f st l ts htext hrmc hrmcE hlen
    have hp := parse_gpgga_short l.parts hlen
    constructor
    · by_cases hg : strEndsWith l.header "GGA" = true
      · simp [sicher_step, htext, hrmc, hg, hp]
      · simp [sicher_step, htext, hrmc, hg]
    · by_cases hg : strEndsWith l.header "GGA" = true
      · simp [buffer_test_step, htext, hrmcE, hg, hp]
      · simp [buffer_test_step, htext, hrmcE, hg]
  · intro f st l ts e htext hrmcE hparse
    by_cases hg : strEndsWith l.header "GGA" = true
    · simp [buffer_test_step, htext, hrmcE, hg, hparse]
    · simp [buffer_test_step, htext, hrmcE, hg]
  · intro f st l ts e htext hrmc hgga hparse
    simp [sicher_step, htext, hrmc, hgga, hparse, StepResult.isFatal]

/-- C7 witness: concrete skipped, dropped and fatal lines. -/
theorem C7_malformed_line_policy_witness :
    sicher_step faultsBenign ⟨none, none⟩ ⟨"", "", []⟩ "t" = .next ⟨none, none⟩ none ∧
    sicher_step faultsBenign ⟨none, none⟩
      ⟨"$GPGGA,1", "$GPGGA", [.text "$GPGGA", .num 1]⟩ "t" = .next ⟨none, none⟩ none ∧
    buffer_test_step faultsBenign ⟨none, none⟩ badLatLine "t" = .next ⟨none, none⟩ none ∧
    (sicher_step faultsBenign ⟨none, none⟩ badLatLine "t").isFatal = true := by
  refine ⟨(C7_malformed_line_policy.1 faultsBenign ⟨none, none⟩ ⟨"", "", []⟩ "t" rfl).1,
    (C7_malformed_line_policy.2.1 faultsBenign ⟨none, none⟩
      ⟨"$GPGGA,1", "$GPGGA", [.text "$GPGGA", .num 1]⟩ "t"
      (by decide) (by decide) (by decide) (by decide)).1,
    C7_malformed_line_policy.2.2.1 faultsBenign ⟨none, none⟩ badLatLine "t" ()
      (by decide) (by decide) rfl,
    C7_malformed_line_policy.2.2.2 faultsBenign ⟨none, none⟩ badLatLine "t" ()
      (by decide) (by decide) (by decide) rfl⟩

/-- C8: speed policy.  (i) A GGA fix processed while `last_speed` is still
unset is persisted with speed 0.0 by `GNSS_sicher.py` and with `None` by
`GNSS_buffer_test.py`.  (ii) A valid RMC sentence whose speed field holds
`s` knots sets `last_speed` to `s * 1.852` km/h in both variants.  (iii) A
subsequent GGA fix is persisted with that last known speed in both
variants. -/
theorem C8_speed_policy :
    (∀ (f : Faults) (st : LoopState) (l : RawLine) (ts : String) (g : GGAout),
      st.last_speed = none → l.text ≠ "" →
      ¬(l.header = "$GPRMC" ∨ l.header = "$GNRMC") →
      strEndsWith l.header "RMC" = false →
      strEndsWith l.header "GGA" = true →
      parse_gpgga l.parts = .ok (some g) →
      f.liveOk = true → f.drainCommitOk = true →
      (sicher_step f st l ts).sent = some (g, some 0) ∧
      (buffer_test_step f st l ts).sent = some (g, none)) ∧
    (∀ (f : Faults) (st : LoopState) (l : RawLine) (ts : String) (s : ℚ),
      l.text ≠ "" →
      (l.header = "$GPRMC" ∨ l.header = "$GNRMC") →
      strEndsWith l.header "RMC" = true →
      8 ≤ l.parts.length →
      l.parts.getD 7 .empty = .num s →
      sicher_step f st l ts =
        .next { st with last_speed := some (s * (1852 / 1000 : ℚ)) } none ∧
      buffer_test_step f st l ts =
        .next { st with last_speed := some (s * (1852 / 1000 : ℚ)) } none) ∧
    (∀ (f : Faults) (st : LoopState) (l : RawLine) (ts : String) (g : GGAout) (v : ℚ),
      st.last_speed = some v → l.text ≠ "" →
      ¬(l.header = "$GPRMC" ∨ l.header = "$GNRMC") →
      strEndsWith l.header "RMC" = false →
      strEndsWith l.header "GGA" = true →
      parse_gpgga l.parts = .ok (some g) →
      f.liveOk = true → f.drainCommitOk = true →
      (sicher_step f st l ts).sent = some (g, some v) ∧
      (buffer_test_step f st l ts).sent = some (g, some v)) := by
  refine ⟨?_, ?_, ?_⟩
  · intro f st l ts g hspeed htext hrmc hrmcE hgga hparse hlive hcommit
    have hr1 : (flush_sicher f.insOk f.drainCommitOk st.file).raised = false := by
      rw [hcommit]; exact flush_sicher_commitOk_not_raised _ _
    have hr2 : (flush_test f.insOk f.drainCommitOk st.file).raised = false := by
      rw [hcommit]; exact flush_test_commitOk_not_raised _ _
    constructor
    · simp [sicher_step, htext, hrmc, hgga, hparse, hlive, hr1, hspeed, StepResult.sent]
    · simp [buffer_test_step, htext, hrmcE, hgga, hparse, hlive, hr2, hspeed, StepResult.sent]
  · intro f st l ts s htext hrmc hrmcE hlen hfield
    have hp := parse_gprmc_num l.parts s hlen hfield
    constructor
    · simp [sicher_step, htext, hrmc, hp]
    · simp [buffer_test_step, htext, hrmcE, hp]
  · intro f st l ts g v hspeed htext hrmc hrmcE hgga hparse hlive hcommit
    have hr1 : (flush_sicher f.insOk f.drainCommitOk st.file).raised = false := by
      rw [hcommit]; exact flush_sicher_commitOk_not_raised _ _
    have hr2 : (flush_test f.insOk f.drainCommitOk st.file).raised = false := by
      rw [hcommit]; exact flush_test_commitOk_not_raised _ _
    constructor
    · simp [sicher_step, htext, hrmc, hgga, hparse, hlive, hr1, hspeed, StepResult.sent]
    · simp [buffer_test_step, htext, hrmcE, hgga, hparse, hlive, hr2, hspeed, StepResult.sent]

/-- C8 witness: the concrete empty-position GGA fix before any RMC (speed
0.0 in sicher, `None` in buffer_test), the RMC sentence with 10 knots, and
the GGA fix afterwards carrying 10 × 1.852 km/h. -/
theorem C8_speed_policy_witness :
    (sicher_step faultsBenign ⟨none, none⟩ ggaLine "t").sent = some (⟨none, none, none⟩, some 0) ∧
    (buffer_test_step faultsBenign ⟨none, none⟩ ggaLine "t").sent = some (⟨none, none, none⟩, none) ∧
    sicher_step faultsBenign ⟨none, none⟩ rmcLine "t" =
      .next ⟨some (10 * (1852 / 1000 : ℚ)), none⟩ none ∧
    (sicher_step faultsBenign ⟨some (10 * (1852 / 1000 : ℚ)), none⟩ ggaLine "t").sent =
      some (⟨none, none, none⟩, some (10 * (1852 / 1000 : ℚ))) := by
  obtain ⟨h1, h2⟩ := C8_speed_policy.1 faultsBenign ⟨none, none⟩ ggaLine "t" ⟨none, none, none⟩
    rfl (by decide) (by decide) (by decide) (by decide) rfl rfl rfl
  obtain ⟨h3, _⟩ := C8_speed_policy.2.1 faultsBenign ⟨none, none⟩ rmcLine "t" 10
    (by decide) (Or.inl rfl) (by decide) (by decide) rfl
  obtain ⟨h4, _⟩ := C8_speed_policy.2.2 faultsBenign ⟨some (10 * (1852 / 1000 : ℚ)), none⟩
    ggaLine "t" ⟨none, none, none⟩ (10 * (1852 / 1000 : ℚ))
    rfl (by decide) (by decide) (by decide) (by decide) rfl rfl rfl
  exact ⟨h1, h2, h3, h4⟩

end GNSS
